import Mathlib

/-!
Shallow embedding of `scripts/download.py`, a one-shot batch fetch-and-verify
utility: it downloads a fixed catalog of files, checks each against a known
MD5 checksum, prints a summary and exits 0 or 1.

Modelling conventions:
* bytes are `Nat` values (meaningful modulo 256), file contents are `List Nat`;
* the filesystem is a partial map `FS := String → Option (List Nat)`;
* `urlretrieve` is abstracted as a caller-supplied `fetch` function that
  receives the url and the current filesystem and returns an outcome together
  with the filesystem after the attempted write;
* console output is recorded as a list of `OutputEvent`s mirroring the
  `print` calls of the source;
* `hashlib.md5()` is a full executable MD5 implementation; the incremental
  accumulator object is modelled by the list of bytes fed so far, finalized
  by hashing (observationally equivalent to the streaming API).
-/

set_option maxRecDepth 4000

namespace UKB

/-- 32-bit truncation. -/
def m32 : Nat := 2 ^ 32

/-- Left-rotate a 32-bit value by `s` bits. -/
def rotl32 (x s : Nat) : Nat :=
  ((x % m32) * 2 ^ s + (x % m32) / 2 ^ (32 - s)) % m32

/-- Little-endian rendering of `n` on `k` bytes. -/
def toLEBytes : Nat → Nat → List Nat
  | _, 0 => []
  | n, k + 1 => n % 256 :: toLEBytes (n / 256) k

/-- Read a little-endian word from a byte list. -/
def leWord (bytes : List Nat) : Nat :=
  bytes.foldr (fun b acc => b % 256 + 256 * acc) 0

/-- The `g`-th 32-bit message word of a 64-byte block (little-endian). -/
def blockWord (block : List Nat) (g : Nat) : Nat :=
  leWord ((block.drop (4 * g)).take 4)

/-- The 64 MD5 round constants. -/
def mdK : List Nat :=
  [0xd76aa478, 0xe8c7b756, 0x242070db, 0xc1bdceee,
   0xf57c0faf, 0x4787c62a, 0xa8304613, 0xfd469501,
   0x698098d8, 0x8b44f7af, 0xffff5bb1, 0x895cd7be,
   0x6b901122, 0xfd987193, 0xa679438e, 0x49b40821,
   0xf61e2562, 0xc040b340, 0x265e5a51, 0xe9b6c7aa,
   0xd62f105d, 0x02441453, 0xd8a1e681, 0xe7d3fbc8,
   0x21e1cde6, 0xc33707d6, 0xf4d50d87, 0x455a14ed,
   0xa9e3e905, 0xfcefa3f8, 0x676f02d9, 0x8d2a4c8a,
   0xfffa3942, 0x8771f681, 0x6d9d6122, 0xfde5380c,
   0xa4beea44, 0x4bdecfa9, 0xf6bb4b60, 0xbebfbc70,
   0x289b7ec6, 0xeaa127fa, 0xd4ef3085, 0x04881d05,
   0xd9d4d039, 0xe6db99e5, 0x1fa27cf8, 0xc4ac5665,
   0xf4292244, 0x432aff97, 0xab9423a7, 0xfc93a039,
   0x655b59c3, 0x8f0ccc92, 0xffeff47d, 0x85845dd1,
   0x6fa87e4f, 0xfe2ce6e0, 0xa3014314, 0x4e0811a1,
   0xf7537e82, 0xbd3af235, 0x2ad7d2bb, 0xeb86d391]

/-- The 64 MD5 per-round shift amounts. -/
def mdS : List Nat :=
  [7, 12, 17, 22, 7, 12, 17, 22, 7, 12, 17, 22, 7, 12, 17, 22,
   5, 9, 14, 20, 5, 9, 14, 20, 5, 9, 14, 20, 5, 9, 14, 20,
   4, 11, 16, 23, 4, 11, 16, 23, 4, 11, 16, 23, 4, 11, 16, 23,
   6, 10, 15, 21, 6, 10, 15, 21, 6, 10, 15, 21, 6, 10, 15, 21]

/-- MD5 working state: four 32-bit words. -/
structure MD5State where
  a : Nat
  b : Nat
  c : Nat
  d : Nat

/-- The MD5 initialization vector. -/
def md5Init : MD5State :=
  ⟨0x67452301, 0xefcdab89, 0x98badcfe, 0x10325476⟩

/-- One MD5 round: round `i` of 64, on message words `M`. -/
def md5RoundStep (M : Nat → Nat) (st : MD5State) (i : Nat) : MD5State :=
  let mask := 0xffffffff
  let fg : Nat × Nat :=
    if i < 16 then
      ((st.b &&& st.c) ||| ((st.b ^^^ mask) &&& st.d), i)
    else if i < 32 then
      ((st.d &&& st.b) ||| ((st.d ^^^ mask) &&& st.c), (5 * i + 1) % 16)
    else if i < 48 then
      (st.b ^^^ st.c ^^^ st.d, (3 * i + 5) % 16)
    else
      (st.c ^^^ (st.b ||| (st.d ^^^ mask)), (7 * i) % 16)
  let tmp := (fg.1 + st.a + mdK.getD i 0 + M fg.2) % m32
  ⟨st.d, (st.b + rotl32 tmp (mdS.getD i 0)) % m32, st.b, st.c⟩

/-- Process one 64-byte block: 64 rounds, then add into the chaining state. -/
def md5ProcessBlock (st : MD5State) (block : List Nat) : MD5State :=
  let r := (List.range 64).foldl (md5RoundStep (blockWord block)) st
  ⟨(st.a + r.a) % m32, (st.b + r.b) % m32, (st.c + r.c) % m32, (st.d + r.d) % m32⟩

/-- MD5 padding: a 0x80 byte, zeros to 56 mod 64, then the bit length on
8 little-endian bytes. -/
def padMessage (msg : List Nat) : List Nat :=
  let padLen := (119 - msg.length % 64) % 64
  msg ++ 0x80 :: (List.replicate padLen 0 ++ toLEBytes ((8 * msg.length) % 2 ^ 64) 8)

/-- Split a list into consecutive chunks of `size` elements (the last one may
be shorter), stopping at the first empty chunk — the `iter(lambda:
f.read(size), b"")` pattern. Fuel-based structural recursion. -/
def chunksAux (size : Nat) : Nat → List Nat → List (List Nat)
  | 0, _ => []
  | _ + 1, [] => []
  | fuel + 1, a :: t => (a :: t).take size :: chunksAux size fuel ((a :: t).drop size)

/-- Split a list into consecutive chunks of `size` elements. -/
def chunks (size : Nat) (l : List Nat) : List (List Nat) :=
  chunksAux size l.length l

/-- The 16-byte MD5 digest of a byte string, taken at once. -/
def md5Bytes (msg : List Nat) : List Nat :=
  let st := (chunks 64 (padMessage msg)).foldl md5ProcessBlock md5Init
  toLEBytes st.a 4 ++ toLEBytes st.b 4 ++ toLEBytes st.c 4 ++ toLEBytes st.d 4

/-- The sixteen lowercase hexadecimal digits. -/
def hexCharsL : List Char :=
  "0123456789abcdef".data

/-- Two lowercase hex characters for one byte (bytes produced by `md5Bytes`
are < 256, so the inner `% 16` on the high nibble is the identity there). -/
def hexOfByte (b : Nat) : List Char :=
  [hexCharsL.getD (b / 16 % 16) '0', hexCharsL.getD (b % 16) '0']

/-- The MD5 digest of a byte string rendered as a lowercase hex string:
the one-shot `hashlib.md5(msg).hexdigest()`. -/
def md5hex (msg : List Nat) : String :=
  String.mk ((md5Bytes msg).flatMap hexOfByte)

/-- Sanity check of the MD5 embedding against the standard test vector for
the empty message. -/
theorem md5hex_empty_vector : md5hex [] = "d41d8cd98f00b204e9800998ecf8427e" := by
  decide

/-- Sanity check of the MD5 embedding against the standard test vector for
the three-byte message abc. -/
theorem md5hex_abc_vector :
    md5hex [97, 98, 99] = "900150983cd24fb0d6963f7d28e17f72" := by
  decide

/-- State of a `hashlib.md5()` accumulator object, modelled by the bytes fed
so far (`update` appends, `hexdigest` hashes the accumulated bytes). -/
def md5_update (state chunk : List Nat) : List Nat :=
  state ++ chunk

/-- Finalize an accumulator: `hexdigest()`. -/
def md5_hexdigest (state : List Nat) : String :=
  md5hex state

/-- `calculate_md5` of the source: read the file in 4096-byte chunks until an
empty read, feed each chunk into the accumulator, return the hex digest.
`fileContents` stands for the bytes of the file at `filepath`. -/
def calculate_md5 (fileContents : List Nat) : String :=
  md5_hexdigest ((chunks 4096 fileContents).foldl md5_update [])

/-- `BASE_URL` of the source. -/
def BASE_URL : String := "https://biobank.ndph.ox.ac.uk/synthetic_dataset/tabular/"

/-- `OUTPUT_DIR` of the source. -/
def OUTPUT_DIR : String := "data"

/-- `FILES` of the source: the fixed download catalog, in order. -/
def FILES : List String :=
  ["41260_HES_SimDates.tsv",
   "41262_HES_SimDates.tsv",
   "41263_HES_SimDates.tsv",
   "41280_HES_SimDates.tsv",
   "41281_HES_SimDates.tsv",
   "41282_HES_SimDates.tsv",
   "41283_HES_SimDates.tsv"]

/-- `CHECKSUMS` of the source: the expected MD5 digest per filename. -/
def CHECKSUMS : List (String × String) :=
  [("41260_HES_SimDates.tsv", "4ff448b195ad417c3ae1324312782c30"),
   ("41262_HES_SimDates.tsv", "46aced37adea430907b81b8370f4718b"),
   ("41263_HES_SimDates.tsv", "5fc75c1d4d221d4e8366d4ce7920e7f8"),
   ("41280_HES_SimDates.tsv", "60007421300548e3a03c317e3392e5d1"),
   ("41281_HES_SimDates.tsv", "3b5a706c475050c5a64ad4359d224309"),
   ("41282_HES_SimDates.tsv", "7592c86dbb8502ca0630a763aa85be47"),
   ("41283_HES_SimDates.tsv", "5c35335d9e91f1eb4c0dca92213f6cb9")]

/-- Dict lookup: `filename in CHECKSUMS` / `CHECKSUMS[filename]`. -/
def lookupChecksum (filename : String) : Option String :=
  (CHECKSUMS.find? (fun p => p.1 == filename)).map (fun p => p.2)

/-- A filesystem: path → contents of the file there, if any. -/
def FS : Type := String → Option (List Nat)

/-- `output_dir / filename`. -/
def outputPath (output_dir filename : String) : String :=
  output_dir ++ "/" ++ filename

/-- One console line of `download_file`, mirroring its `print` calls. -/
inductive OutputEvent where
  | downloading (filename : String)
  | fetchOk
  | verifying
  | verifyOk
  | verifyMismatch (expected actual : String)
  | noChecksumWarning
  | errorLine (msg : String)
deriving DecidableEq

/-- Outcome of one `urlretrieve(url, output_path)` call: either success or an
exception message, together with the filesystem after the attempted write
(on success the fetched bytes are at `output_path`; on failure the
filesystem is whatever the failed write left behind). -/
def Fetch : Type := String → FS → Except String Unit × FS

/-- `download_file` of the source. `fetch` stands for `urlretrieve`; the
returned triple is (return value, console output in order, filesystem after
the call). On a successful fetch the file is re-read from disk for hashing;
a missing file at that point raises inside the `try`, is caught by the
`except`, and yields `False` — as in the source. -/
def download_file (fetch : Fetch) (fs : FS) (filename output_dir : String) :
    Bool × List OutputEvent × FS :=
  let url := BASE_URL ++ filename
  let output_path := outputPath output_dir filename
  match fetch url fs with
  | (.error e, fs') =>
      (false, [.downloading filename, .errorLine e], fs')
  | (.ok _, fs') =>
      match lookupChecksum filename with
      | some expected =>
          match fs' output_path with
          | none =>
              (false,
               [.downloading filename, .fetchOk, .verifying,
                .errorLine ("IOError: " ++ output_path)], fs')
          | some bytes =>
              let calculated := calculate_md5 bytes
              if calculated == expected then
                (true, [.downloading filename, .fetchOk, .verifying, .verifyOk], fs')
              else
                (false,
                 [.downloading filename, .fetchOk, .verifying,
                  .verifyMismatch expected calculated], fs')
      | none =>
          (true, [.downloading filename, .fetchOk, .noChecksumWarning], fs')

/-- The Verifier of the spec, as the source implements it (lines 74–77):
recompute the digest of the file on disk and compare to the expected digest
with plain string equality. Opening a missing path makes `calculate_md5`
raise `IOError`, so no outcome is produced there: that path is `none`. -/
def verify (fs : FS) (path expected_digest : String) : Option Bool :=
  (fs path).map (fun bytes => calculate_md5 bytes == expected_digest)

/-- Lowercase a string character by character. -/
def lowerString (s : String) : String :=
  String.mk (s.data.map Char.toLower)

/-- A step of `main` observable in its call trace: the single `mkdir` call,
and one fetch attempt per catalog entry. -/
inductive Ev where
  | mkdirCall
  | fetchCall (filename : String)
deriving DecidableEq

/-- `Path.mkdir(parents=True, exist_ok=True)`: succeeds at once when the
directory already exists; otherwise the attempt to create it has outcome
`createOutcome`. -/
def mkdir_parents_exist_ok (dirExists : Bool) (createOutcome : Except String Unit) :
    Except String Unit :=
  if dirExists then .ok () else createOutcome

/-- The download loop of `main` (lines 99–103): one `download_file` call per
catalog entry in order, threading the filesystem, collecting
`(filename, success)` results and the fetch-call trace. -/
def runFiles (fetch : Fetch) (fs : FS) :
    List String → List (String × Bool) × FS × List Ev
  | [] => ([], fs, [])
  | filename :: rest =>
      let r := download_file fetch fs filename OUTPUT_DIR
      let rec' := runFiles fetch r.2.2 rest
      ((filename, r.1) :: rec'.1, rec'.2.1, .fetchCall filename :: rec'.2.2)

/-- `main` of the source. Returns `(outcome, filesystem, call trace)`:
`outcome` is `.error e` when the initial `mkdir` raises (the uncaught
exception aborts the run before any result is recorded), else
`.ok (results, exit code)` where the exit code is 1 when any file failed
(`sys.exit(1)`) and 0 otherwise (normal return). -/
def main (dirExists : Bool) (createOutcome : Except String Unit)
    (fetch : Fetch) (fs : FS) :
    Except String (List (String × Bool) × Nat) × FS × List Ev :=
  match mkdir_parents_exist_ok dirExists createOutcome with
  | .error e => (.error e, fs, [.mkdirCall])
  | .ok _ =>
      let r := runFiles fetch fs FILES
      let successful := r.1.countP (fun p => p.2)
      let failed := r.1.length - successful
      (.ok (r.1, if failed > 0 then 1 else 0), r.2.1, .mkdirCall :: r.2.2)

/-! ### Helper lemmas -/

theorem chunksAux_flatten (size : Nat) (hs : 0 < size) :
    ∀ fuel l, l.length ≤ fuel → (chunksAux size fuel l).flatten = l := by
  intro fuel
  induction fuel with
  | zero =>
      intro l h
      have : l = [] := List.length_eq_zero.mp (Nat.le_zero.mp h)
      subst this
      simp [chunksAux]
  | succ n ih =>
      intro l h
      cases l with
      | nil => simp [chunksAux]
      | cons a t =>
          have hlen : t.length + 1 ≤ n + 1 := by simpa using h
          have hdrop : ((a :: t).drop size).length ≤ n := by
            rw [List.length_drop, List.length_cons]
            omega
          simp only [chunksAux, List.flatten_cons, ih _ hdrop]
          exact List.take_append_drop size (a :: t)

theorem chunks_flatten (size : Nat) (hs : 0 < size) (l : List Nat) :
    (chunks size l).flatten = l :=
  chunksAux_flatten size hs l.length l (Nat.le_refl _)

theorem foldl_md5_update (cs : List (List Nat)) :
    ∀ acc, cs.foldl md5_update acc = acc ++ cs.flatten := by
  induction cs with
  | nil => intro acc; simp
  | cons c t ih => intro acc; simp [md5_update, ih, List.append_assoc]

theorem calculate_md5_eq_md5hex (fileContents : List Nat) :
    calculate_md5 fileContents = md5hex fileContents := by
  unfold calculate_md5 md5_hexdigest
  rw [foldl_md5_update, List.nil_append, chunks_flatten 4096 (by norm_num)]

theorem toLEBytes_length : ∀ k n, (toLEBytes n k).length = k := by
  intro k
  induction k with
  | zero => intro n; simp [toLEBytes]
  | succ m ih => intro n; simp [toLEBytes, ih]

theorem md5Bytes_length (msg : List Nat) : (md5Bytes msg).length = 16 := by
  unfold md5Bytes
  simp [toLEBytes_length]

theorem flatMap_hexOfByte_length :
    ∀ l : List Nat, (l.flatMap hexOfByte).length = 2 * l.length := by
  intro l
  induction l with
  | nil => simp
  | cons b t ih => simp [hexOfByte, ih]; omega

theorem md5hex_length (msg : List Nat) : (md5hex msg).length = 32 := by
  show ((md5Bytes msg).flatMap hexOfByte).length = 32
  rw [flatMap_hexOfByte_length, md5Bytes_length]

theorem getD_hexCharsL_mem (i : Nat) (h : i < 16) :
    hexCharsL.getD i '0' ∈ hexCharsL := by
  interval_cases i <;> decide

theorem hexOfByte_mem (b : Nat) (c : Char) (h : c ∈ hexOfByte b) :
    c ∈ hexCharsL := by
  simp only [hexOfByte, List.mem_cons, List.not_mem_nil, or_false] at h
  rcases h with h | h
  · exact h ▸ getD_hexCharsL_mem _ (Nat.mod_lt _ (by norm_num))
  · exact h ▸ getD_hexCharsL_mem _ (Nat.mod_lt _ (by norm_num))

/-- Decidable check: `c` is a lowercase hexadecimal digit. -/
def isLowerHexChar (c : Char) : Bool :=
  decide (c ∈ hexCharsL)

theorem md5hex_chars_lower_hex (msg : List Nat) :
    (md5hex msg).data.all isLowerHexChar = true := by
  rw [List.all_eq_true]
  intro c hc
  have hmem : c ∈ (md5Bytes msg).flatMap hexOfByte := hc
  rw [List.mem_flatMap] at hmem
  obtain ⟨b, _, hcb⟩ := hmem
  exact decide_eq_true (hexOfByte_mem b c hcb)

theorem hexCharsL_not_upper : ∀ c ∈ hexCharsL, c.isUpper = false := by
  decide

theorem runFiles_map_fst (fetch : Fetch) :
    ∀ files fs, ((runFiles fetch fs files).1.map Prod.fst) = files := by
  intro files
  induction files with
  | nil => intro fs; simp [runFiles]
  | cons f t ih => intro fs; simp [runFiles, ih]

theorem runFiles_trace (fetch : Fetch) :
    ∀ files fs, (runFiles fetch fs files).2.2 = files.map Ev.fetchCall := by
  intro files
  induction files with
  | nil => intro fs; simp [runFiles]
  | cons f t ih => intro fs; simp [runFiles, ih]

/-- Computation rule for `download_file`: the fetch raised. -/
theorem download_file_fetch_error (fetch : Fetch) (fs fs' : FS) (fn od e : String)
    (hf : fetch (BASE_URL ++ fn) fs = (.error e, fs')) :
    download_file fetch fs fn od =
      (false, [.downloading fn, .errorLine e], fs') := by
  simp only [download_file]
  rw [hf]

/-- Computation rule for `download_file`: fetch succeeded, a checksum is
known, and the downloaded file is on disk. -/
theorem download_file_ok_some (fetch : Fetch) (fs fs' : FS) (fn od d : String)
    (bytes : List Nat)
    (hf : fetch (BASE_URL ++ fn) fs = (.ok (), fs'))
    (hck : lookupChecksum fn = some d)
    (hb : fs' (outputPath od fn) = some bytes) :
    download_file fetch fs fn od =
      if calculate_md5 bytes == d then
        (true, [.downloading fn, .fetchOk, .verifying, .verifyOk], fs')
      else
        (false, [.downloading fn, .fetchOk, .verifying,
                 .verifyMismatch d (calculate_md5 bytes)], fs') := by
  simp only [download_file]
  rw [hf]
  simp only [hck, hb]

/-- Computation rule for `download_file`: fetch succeeded, no checksum known. -/
theorem download_file_ok_no_checksum (fetch : Fetch) (fs fs' : FS) (fn od : String)
    (hf : fetch (BASE_URL ++ fn) fs = (.ok (), fs'))
    (hck : lookupChecksum fn = none) :
    download_file fetch fs fn od =
      (true, [.downloading fn, .fetchOk, .noChecksumWarning], fs') := by
  simp only [download_file]
  rw [hf]
  simp only [hck]

/-- Helper: when the catalog has a checksum for `filename`, the
no-checksum-warning line is never printed by `download_file`. -/
theorem noChecksumWarning_not_mem (fetch : Fetch) (fs : FS) (fn od d : String)
    (h : lookupChecksum fn = some d) :
    OutputEvent.noChecksumWarning ∉ (download_file fetch fs fn od).2.1 := by
  rcases hf : fetch (BASE_URL ++ fn) fs with ⟨o, fs'⟩
  cases o with
  | error e =>
      rw [download_file_fetch_error fetch fs fs' fn od e hf]
      simp
  | ok u =>
      cases u
      cases hb : fs' (outputPath od fn) with
      | none =>
          simp only [download_file]
          rw [hf]
          simp only [h, hb]
          simp
      | some bytes =>
          rw [download_file_ok_some fetch fs fs' fn od d bytes hf h hb]
          by_cases hc : calculate_md5 bytes == d <;> simp [hc]

/-! ### Claim theorems -/

/-- C7: the chunked MD5 computation of `calculate_md5` (4096-byte blocks fed
into an incremental accumulator until an empty read) returns exactly the MD5
digest of the whole contents taken at once, rendered as a lowercase
hexadecimal string of 32 characters. -/
theorem C7_chunked_md5_refines_whole (fileContents : List Nat) :
    calculate_md5 fileContents = md5hex fileContents ∧
    (calculate_md5 fileContents).length = 32 ∧
    (calculate_md5 fileContents).data.all isLowerHexChar = true :=
  ⟨calculate_md5_eq_md5hex _,
   by rw [calculate_md5_eq_md5hex]; exact md5hex_length _,
   by rw [calculate_md5_eq_md5hex]; exact md5hex_chars_lower_hex _⟩

/-- C6 counterexample: the verifier does NOT lowercase before comparing. For
an empty file present on disk (whose MD5 is
d41d8cd98f00b204e9800998ecf8427e), the uppercase form of the correct digest
verifies as false while its lowercase form verifies as true, so the outcome
for `d` differs from the outcome for the lowercase form of `d`, and an
uppercase-hex expected digest of matching content does not verify as true. -/
theorem C6_counterexample_case_sensitive :
    verify (fun p => if p = "data/x.tsv" then some [] else none) "data/x.tsv"
        "D41D8CD98F00B204E9800998ECF8427E" = some false ∧
    verify (fun p => if p = "data/x.tsv" then some [] else none) "data/x.tsv"
        (lowerString "D41D8CD98F00B204E9800998ECF8427E") = some true := by
  constructor
  · decide
  · decide

/-- C6 (amended): for a file present on disk the verifier's comparison is
case-sensitive — no side is lowercased. The outcome is exactly the equality
of the expected digest string with the computed digest; it is true iff they
are equal as given; and since the computed digest is rendered in lowercase
hex, an expected digest containing an uppercase letter never verifies as
true, even for matching content. -/
theorem C6_amended_comparison_case_sensitive (fs : FS) (path d : String)
    (bytes : List Nat) (hfile : fs path = some bytes) :
    verify fs path d = some (calculate_md5 bytes == d) ∧
    (verify fs path d = some true ↔ d = calculate_md5 bytes) ∧
    ((∃ c ∈ d.data, c.isUpper = true) → verify fs path d = some false) := by
  have heval : verify fs path d = some (calculate_md5 bytes == d) := by
    unfold verify
    rw [hfile]
    rfl
  refine ⟨heval, ?_, ?_⟩
  · constructor
    · intro h
      rw [heval, Option.some.injEq] at h
      exact (beq_iff_eq.mp h).symm
    · intro h
      rw [heval, h]
      simp
  · rintro ⟨c, hc, hup⟩
    have hne : calculate_md5 bytes ≠ d := by
      intro heq
      rw [← heq, calculate_md5_eq_md5hex] at hc
      have hall := (List.all_eq_true.mp (md5hex_chars_lower_hex bytes)) c hc
      have hmem : c ∈ hexCharsL := of_decide_eq_true hall
      rw [hexCharsL_not_upper c hmem] at hup
      exact Bool.false_ne_true hup
    rw [heval, beq_eq_false_iff_ne.mpr hne]

/-- C3: for a file with a known expected checksum whose fetch succeeds and
writes `content` to the destination, the result is true iff the computed MD5
digest of the downloaded bytes equals the expected digest, and on a mismatch
a console line carrying both the expected and the actual digest is printed. -/
theorem C3_verification_result (fetch : Fetch) (fs fs' : FS)
    (filename output_dir expected : String) (content : List Nat)
    (hck : lookupChecksum filename = some expected)
    (hfetch : fetch (BASE_URL ++ filename) fs = (.ok (), fs'))
    (hfile : fs' (outputPath output_dir filename) = some content) :
    ((download_file fetch fs filename output_dir).1 = true ↔
      calculate_md5 content = expected) ∧
    (calculate_md5 content ≠ expected →
      OutputEvent.verifyMismatch expected (calculate_md5 content) ∈
        (download_file fetch fs filename output_dir).2.1) := by
  rw [download_file_ok_some fetch fs fs' filename output_dir expected content
        hfetch hck hfile]
  by_cases h : calculate_md5 content = expected
  · simp [h]
  · simp [h, beq_eq_false_iff_ne.mpr h]

/-- C4: when the fetch raises, the result is false, the only console lines
are the download line and the error line (in particular no verification
line: no checksum is computed or compared), and the loop continues with the
next catalog entries. -/
theorem C4_fetch_failure_caught (fetch : Fetch) (fs fs' : FS)
    (filename output_dir e : String) (rest : List String)
    (hfetch : fetch (BASE_URL ++ filename) fs = (.error e, fs')) :
    (download_file fetch fs filename output_dir).1 = false ∧
    (download_file fetch fs filename output_dir).2.1 =
      [.downloading filename, .errorLine e] ∧
    OutputEvent.verifying ∉ (download_file fetch fs filename output_dir).2.1 ∧
    (runFiles fetch fs (filename :: rest)).1 =
      (filename, false) :: (runFiles fetch fs' rest).1 := by
  have hdf := download_file_fetch_error fetch fs fs' filename output_dir e hfetch
  have hdf0 := download_file_fetch_error fetch fs fs' filename OUTPUT_DIR e hfetch
  refine ⟨?_, ?_, ?_, ?_⟩
  · rw [hdf]
  · rw [hdf]
  · rw [hdf]; simp
  · simp [runFiles, hdf0]

/-- C5: for a file with no entry in the checksum table, a successful fetch is
recorded as a success regardless of what was downloaded, and the verifier is
never invoked (no verification line is printed; a no-checksum warning is). -/
theorem C5_no_checksum_success (fetch : Fetch) (fs fs' : FS)
    (filename output_dir : String)
    (hck : lookupChecksum filename = none)
    (hfetch : fetch (BASE_URL ++ filename) fs = (.ok (), fs')) :
    (download_file fetch fs filename output_dir).1 = true ∧
    (download_file fetch fs filename output_dir).2.1 =
      [.downloading filename, .fetchOk, .noChecksumWarning] ∧
    OutputEvent.verifying ∉ (download_file fetch fs filename output_dir).2.1 := by
  rw [download_file_ok_no_checksum fetch fs fs' filename output_dir hfetch hck]
  simp

/-- Computation rule for `main`: the initial `mkdir` raised. -/
theorem main_mkdir_error (dirExists : Bool) (createOutcome : Except String Unit)
    (fetch : Fetch) (fs : FS) (e : String)
    (hm : mkdir_parents_exist_ok dirExists createOutcome = .error e) :
    main dirExists createOutcome fetch fs = (.error e, fs, [.mkdirCall]) := by
  simp only [main]
  rw [hm]

/-- Computation rule for `main`: the initial `mkdir` succeeded. -/
theorem main_mkdir_ok (dirExists : Bool) (createOutcome : Except String Unit)
    (fetch : Fetch) (fs : FS)
    (hm : mkdir_parents_exist_ok dirExists createOutcome = .ok ()) :
    main dirExists createOutcome fetch fs =
      (.ok ((runFiles fetch fs FILES).1,
            if (runFiles fetch fs FILES).1.length -
                 (runFiles fetch fs FILES).1.countP (fun p => p.2) > 0
            then 1 else 0),
       (runFiles fetch fs FILES).2.1,
       .mkdirCall :: (runFiles fetch fs FILES).2.2) := by
  simp only [main]
  rw [hm]

/-- C1: when the run completes, its exit code is 0 iff every recorded result
is a success, and 1 iff at least one result is a failure. -/
theorem C1_exit_code_iff_failures (dirExists : Bool)
    (createOutcome : Except String Unit) (fetch : Fetch) (fs : FS)
    (results : List (String × Bool)) (code : Nat)
    (h : (main dirExists createOutcome fetch fs).1 = .ok (results, code)) :
    (code = 0 ↔ ∀ r ∈ results, r.2 = true) ∧
    (code = 1 ↔ ∃ r ∈ results, r.2 = false) := by
  cases hm : mkdir_parents_exist_ok dirExists createOutcome with
  | error e =>
      rw [main_mkdir_error dirExists createOutcome fetch fs e hm] at h
      simp at h
  | ok u =>
      cases u
      rw [main_mkdir_ok dirExists createOutcome fetch fs hm] at h
      simp only [Except.ok.injEq, Prod.mk.injEq] at h
      obtain ⟨hres, hcode⟩ := h
      subst hcode
      rw [hres]
      have hle : results.countP (fun p => p.2) ≤ results.length :=
        List.countP_le_length _
      by_cases hgt : results.length - results.countP (fun p => p.2) > 0
      · rw [if_pos hgt]
        have hne : results.countP (fun p => p.2) ≠ results.length := by omega
        have hnall : ¬ ∀ a ∈ results, a.2 = true := fun hall =>
          hne (List.countP_eq_length.mpr hall)
        have hex : ∃ r ∈ results, r.2 = false := by
          by_contra hno
          push_neg at hno
          refine hnall (fun a ha => ?_)
          cases hb : a.2 with
          | true => rfl
          | false => exact absurd hb (hno a ha)
        exact ⟨⟨fun h01 => absurd h01 one_ne_zero,
                fun hall => absurd hall hnall⟩,
               ⟨fun _ => hex, fun _ => rfl⟩⟩
      · rw [if_neg hgt]
        have heq : results.countP (fun p => p.2) = results.length := by omega
        have hall : ∀ a ∈ results, a.2 = true := by
          have := List.countP_eq_length.mp heq
          simpa using this
        have hnoex : ¬ ∃ r ∈ results, r.2 = false := by
          rintro ⟨r, hr, hf2⟩
          rw [hall r hr] at hf2
          simp at hf2
        exact ⟨⟨fun _ => hall, fun _ => rfl⟩,
               ⟨fun h01 => absurd h01.symm one_ne_zero,
                fun hex => absurd hex hnoex⟩⟩

/-- C2: when the run completes, there is exactly one result per catalog
entry, in catalog order; each catalog filename occurs exactly once among the
results, and the call trace attempts each filename at most once. -/
theorem C2_one_result_per_file (dirExists : Bool)
    (createOutcome : Except String Unit) (fetch : Fetch) (fs : FS)
    (results : List (String × Bool)) (code : Nat)
    (h : (main dirExists createOutcome fetch fs).1 = .ok (results, code)) :
    results.map Prod.fst = FILES ∧
    results.length = FILES.length ∧
    (∀ fn ∈ FILES, (results.map Prod.fst).count fn = 1) ∧
    (∀ fn, ((main dirExists createOutcome fetch fs).2.2).count (Ev.fetchCall fn) ≤ 1) := by
  cases hm : mkdir_parents_exist_ok dirExists createOutcome with
  | error e =>
      rw [main_mkdir_error dirExists createOutcome fetch fs e hm] at h
      simp at h
  | ok u =>
      cases u
      have hmain := main_mkdir_ok dirExists createOutcome fetch fs hm
      rw [hmain] at h
      simp only [Except.ok.injEq, Prod.mk.injEq] at h
      obtain ⟨hres, _⟩ := h
      have h1 : results.map Prod.fst = FILES := by
        rw [← hres]
        exact runFiles_map_fst fetch FILES fs
      have hnd : FILES.Nodup := by decide
      refine ⟨h1, ?_, ?_, ?_⟩
      · have := congrArg List.length h1
        simpa using this
      · intro fn hfn
        rw [h1]
        exact List.count_eq_one_of_mem hnd hfn
      · intro fn
        rw [hmain]
        show (Ev.mkdirCall :: (runFiles fetch fs FILES).2.2).count (Ev.fetchCall fn) ≤ 1
        rw [runFiles_trace fetch FILES fs]
        have hinj : Function.Injective Ev.fetchCall := by
          intro a b hab
          injection hab
        rw [List.count_cons_of_ne (by simp), List.count_map_of_injective _ _ hinj]
        exact List.nodup_iff_count_le_one.mp hnd fn

/-- C8: the output directory is established exactly once, before any fetch
(the call trace starts with the single mkdir call); creating it is
idempotent (an existing directory is not an error); and the run aborts with
no per-file result if and only if this step fails. -/
theorem C8_mkdir_once_idempotent_fatal (dirExists : Bool)
    (createOutcome : Except String Unit) (fetch : Fetch) (fs : FS) :
    (∀ c : Except String Unit, mkdir_parents_exist_ok true c = .ok ()) ∧
    (∀ e, mkdir_parents_exist_ok dirExists createOutcome = .error e →
      main dirExists createOutcome fetch fs = (.error e, fs, [Ev.mkdirCall])) ∧
    (mkdir_parents_exist_ok dirExists createOutcome = .ok () →
      ∃ results code,
        (main dirExists createOutcome fetch fs).1 = .ok (results, code)) ∧
    ((main dirExists createOutcome fetch fs).2.2).count Ev.mkdirCall = 1 ∧
    ((main dirExists createOutcome fetch fs).2.2).head? = some Ev.mkdirCall := by
  refine ⟨fun c => rfl, ?_, ?_, ?_⟩
  · intro e hm
    exact main_mkdir_error dirExists createOutcome fetch fs e hm
  · intro hm
    rw [main_mkdir_ok dirExists createOutcome fetch fs hm]
    exact ⟨_, _, rfl⟩
  · cases hm : mkdir_parents_exist_ok dirExists createOutcome with
    | error e =>
        rw [main_mkdir_error dirExists createOutcome fetch fs e hm]
        exact ⟨by simp, rfl⟩
    | ok u =>
        cases u
        rw [main_mkdir_ok dirExists createOutcome fetch fs hm]
        constructor
        · show (Ev.mkdirCall :: (runFiles fetch fs FILES).2.2).count Ev.mkdirCall = 1
          rw [runFiles_trace fetch FILES fs, List.count_cons_self]
          have : (FILES.map Ev.fetchCall).count Ev.mkdirCall = 0 := by
            rw [List.count_eq_zero]
            simp
          rw [this]
        · rfl

/-- C9: on a checksum mismatch the verification step leaves the filesystem
exactly as the fetch left it — the file at the destination path is neither
deleted nor moved, and its contents after the call are the bytes the fetch
wrote. -/
theorem C9_mismatch_keeps_file (fetch : Fetch) (fs fs' : FS)
    (filename output_dir expected : String) (content : List Nat)
    (hck : lookupChecksum filename = some expected)
    (hfetch : fetch (BASE_URL ++ filename) fs = (.ok (), fs'))
    (hfile : fs' (outputPath output_dir filename) = some content)
    (hmis : calculate_md5 content ≠ expected) :
    (download_file fetch fs filename output_dir).1 = false ∧
    (download_file fetch fs filename output_dir).2.2 = fs' ∧
    (download_file fetch fs filename output_dir).2.2
      (outputPath output_dir filename) = some content := by
  rw [download_file_ok_some fetch fs fs' filename output_dir expected content
        hfetch hck hfile]
  rw [beq_eq_false_iff_ne.mpr hmis]
  exact ⟨rfl, rfl, hfile⟩

/-- C10: every filename of the static catalog has an entry in the checksum
table, every expected digest there is a 32-character lowercase hex string,
and consequently the no-checksum branch of `download_file` (its warning
line) is never taken for a catalog filename. -/
theorem C10_catalog_fully_checksummed :
    FILES.all (fun fn => (lookupChecksum fn).isSome) = true ∧
    CHECKSUMS.all (fun p => p.2.length == 32 && p.2.data.all isLowerHexChar) = true ∧
    ∀ (fetch : Fetch) (fs : FS) (od fn : String), fn ∈ FILES →
      OutputEvent.noChecksumWarning ∉ (download_file fetch fs fn od).2.1 := by
  have hallf : FILES.all (fun fn => (lookupChecksum fn).isSome) = true := by decide
  refine ⟨hallf, by decide, ?_⟩
  intro fetch fs od fn hfn
  have h1 : (lookupChecksum fn).isSome = true :=
    List.all_eq_true.mp hallf fn hfn
  obtain ⟨d, hd⟩ := Option.isSome_iff_exists.mp h1
  exact noChecksumWarning_not_mem fetch fs fn od d hd

/-! ### Witnesses: the claim theorems applied at concrete inputs -/

/-- Witness for C1: a run in which every fetch raises gets exit code 1, and
indeed some result is a failure. -/
theorem C1_exit_code_iff_failures_witness :
    ∃ r ∈ ([("41260_HES_SimDates.tsv", false), ("41262_HES_SimDates.tsv", false),
            ("41263_HES_SimDates.tsv", false), ("41280_HES_SimDates.tsv", false),
            ("41281_HES_SimDates.tsv", false), ("41282_HES_SimDates.tsv", false),
            ("41283_HES_SimDates.tsv", false)] : List (String × Bool)),
      r.2 = false :=
  (C1_exit_code_iff_failures true (.ok ()) (fun _ fs => (.error "down", fs))
      (fun _ => none)
      [("41260_HES_SimDates.tsv", false), ("41262_HES_SimDates.tsv", false),
       ("41263_HES_SimDates.tsv", false), ("41280_HES_SimDates.tsv", false),
       ("41281_HES_SimDates.tsv", false), ("41282_HES_SimDates.tsv", false),
       ("41283_HES_SimDates.tsv", false)] 1 rfl).2.mp rfl

/-- Witness for C2: in the same all-failing run, the result filenames are
exactly the catalog in order. -/
theorem C2_one_result_per_file_witness :
    ([("41260_HES_SimDates.tsv", false), ("41262_HES_SimDates.tsv", false),
      ("41263_HES_SimDates.tsv", false), ("41280_HES_SimDates.tsv", false),
      ("41281_HES_SimDates.tsv", false), ("41282_HES_SimDates.tsv", false),
      ("41283_HES_SimDates.tsv", false)] : List (String × Bool)).map Prod.fst =
      FILES :=
  (C2_one_result_per_file true (.ok ()) (fun _ fs => (.error "down", fs))
      (fun _ => none)
      [("41260_HES_SimDates.tsv", false), ("41262_HES_SimDates.tsv", false),
       ("41263_HES_SimDates.tsv", false), ("41280_HES_SimDates.tsv", false),
       ("41281_HES_SimDates.tsv", false), ("41282_HES_SimDates.tsv", false),
       ("41283_HES_SimDates.tsv", false)] 1 rfl).1

/-- Witness for C3: a fetch that writes an empty file for the first catalog
entry; its digest d41d8cd98f00b204e9800998ecf8427e differs from the expected
checksum, so the mismatch line carrying both digests is printed. -/
theorem C3_verification_result_witness :
    OutputEvent.verifyMismatch "4ff448b195ad417c3ae1324312782c30"
        (calculate_md5 []) ∈
      (download_file
        (fun _ fs =>
          (.ok (), fun p => if p = "data/41260_HES_SimDates.tsv" then some [] else fs p))
        (fun _ => none) "41260_HES_SimDates.tsv" "data").2.1 :=
  (C3_verification_result
      (fun _ fs =>
        (.ok (), fun p => if p = "data/41260_HES_SimDates.tsv" then some [] else fs p))
      (fun _ => none)
      (fun p => if p = "data/41260_HES_SimDates.tsv" then some [] else none)
      "41260_HES_SimDates.tsv" "data" "4ff448b195ad417c3ae1324312782c30" []
      (by decide) rfl (by decide)).2 (by decide)

/-- Witness for C4: a raising fetch yields a failed result for the file. -/
theorem C4_fetch_failure_caught_witness :
    (download_file (fun _ fs => (.error "unreachable host", fs)) (fun _ => none)
      "41260_HES_SimDates.tsv" "data").1 = false :=
  (C4_fetch_failure_caught (fun _ fs => (.error "unreachable host", fs))
      (fun _ => none) (fun _ => none) "41260_HES_SimDates.tsv" "data"
      "unreachable host" ["41262_HES_SimDates.tsv"] rfl).1

/-- Witness for C5: a file absent from the checksum table is reported
successful after a successful fetch. -/
theorem C5_no_checksum_success_witness :
    (download_file (fun _ fs => (.ok (), fs)) (fun _ => none)
      "unknown.tsv" "data").1 = true :=
  (C5_no_checksum_success (fun _ fs => (.ok (), fs)) (fun _ => none)
      (fun _ => none) "unknown.tsv" "data" (by decide) rfl).1

/-- Witness for C6 (amended): against an empty file present on disk, an
expected digest containing an uppercase letter verifies as false. -/
theorem C6_amended_comparison_case_sensitive_witness :
    verify (fun p => if p = "data/y.tsv" then some [] else none) "data/y.tsv"
      "4FF448B195AD417C3AE1324312782C30" = some false :=
  (C6_amended_comparison_case_sensitive
      (fun p => if p = "data/y.tsv" then some [] else none) "data/y.tsv"
      "4FF448B195AD417C3AE1324312782C30" [] (by decide)).2.2
    ⟨'F', by decide, by decide⟩

/-- Witness for C8: a failing mkdir on a missing directory aborts the run at
once, with no per-file result and no fetch in the trace. -/
theorem C8_mkdir_once_idempotent_fatal_witness :
    main false (.error "mkdir failed") (fun _ fs => (.error "down", fs))
        (fun _ => none) =
      (.error "mkdir failed", (fun _ => none : FS), [Ev.mkdirCall]) :=
  (C8_mkdir_once_idempotent_fatal false (.error "mkdir failed")
      (fun _ fs => (.error "down", fs)) (fun _ => none)).2.1 "mkdir failed" rfl

/-- Witness for C9: after the mismatching download of the empty file, the
destination still holds the fetched bytes. -/
theorem C9_mismatch_keeps_file_witness :
    (download_file
        (fun _ fs =>
          (.ok (), fun p => if p = "data/41260_HES_SimDates.tsv" then some [] else fs p))
        (fun _ => none) "41260_HES_SimDates.tsv" "data").2.2
      (outputPath "data" "41260_HES_SimDates.tsv") = some [] :=
  (C9_mismatch_keeps_file
      (fun _ fs =>
        (.ok (), fun p => if p = "data/41260_HES_SimDates.tsv" then some [] else fs p))
      (fun _ => none)
      (fun p => if p = "data/41260_HES_SimDates.tsv" then some [] else none)
      "41260_HES_SimDates.tsv" "data" "4ff448b195ad417c3ae1324312782c30" []
      (by decide) rfl (by decide) (by decide)).2.2

/-- Witness for C10: the first catalog file never triggers the no-checksum
warning, here under a raising fetch. -/
theorem C10_catalog_fully_checksummed_witness :
    OutputEvent.noChecksumWarning ∉
      (download_file (fun _ fs => (.error "down", fs)) (fun _ => none)
        "41260_HES_SimDates.tsv" "data").2.1 :=
  C10_catalog_fully_checksummed.2.2 (fun _ fs => (.error "down", fs))
    (fun _ => none) "data" "41260_HES_SimDates.tsv" (by decide)

end UKB
